import Mathlib

/-!
Verification development for the sidebot dashboard repository
(`app.py`, `eval.py`, `query.py`, `shared.py`).

We give a shallow embedding of the parts of the program the spec talks
about:

* the result-set comparison scorer `compare_data_frames` of `eval.py`,
  over an explicit model of pandas data frames (a frame is a column-name
  list, a row-index label list, and rows of values; `DataFrame.equals`
  compares the column axis, the row-index axis and the cell values, and
  `sort_values` reorders rows while keeping their original index labels,
  exactly as pandas does with the default `ignore_index=False`);
* the evaluation scorer `sql_scorer` and the eval-side tool
  `update_dashboard` of `eval.py` (the call log is appended before the
  query is validated; the scorer consumes the last logged call);
* the Shiny app's tool layer in `app.py`: the reactive view state
  (`current_query`/`current_title`), `update_filter`,
  `update_dashboard`, `query_db`, the derived view `birds_data`, and
  `fork_session`.

The dataset engine (duckdb) is external: it is modelled as a parameter
`engine : String → Except String Frame` — a query either produces a
result frame or fails with an error message. Exceptions raised by
Python code are modelled with `Except`: a tool that raises is a tool
returning `.error`, with the state it would leave behind returned
alongside.
-/

namespace Sidebot

/-- A cell value of a result set. Result columns are homogeneous in the
program (duckdb output), so a two-constructor value type (text or
integer) suffices for the frames the claims touch. -/
inductive Val where
  | s : String → Val
  | i : Int → Val
deriving DecidableEq, Repr

/-- A pandas data frame as produced by `duckdb.query(...).to_df()`:
named columns, a row-index label sequence (a fresh frame has the
default range index `0, 1, ..., n-1`), and rows of cells aligned with
`cols`. -/
structure Frame where
  cols : List String
  index : List Nat
  rows : List (List Val)
deriving DecidableEq, Repr

/-- `pandas.DataFrame.equals`: true iff the column axis, the row-index
axis and the cell values all coincide (pandas compares both axes by
value and then the blocks element-wise). -/
def Frame.equals (f1 f2 : Frame) : Bool :=
  f1.cols == f2.cols && f1.index == f2.index && f1.rows == f2.rows

/-- `DataFrame.drop(columns=dropCols)`: remove the named columns,
keeping the remaining columns in their original order; rows keep the
cells of the kept columns. -/
def Frame.drop (f : Frame) (dropCols : List String) : Frame :=
  { cols := f.cols.filter (fun c => !(dropCols.contains c)),
    index := f.index,
    rows := f.rows.map (fun r =>
      (f.cols.zip r).filterMap
        (fun p => if dropCols.contains p.1 then none else some p.2)) }

/-- Strict order on cell values used by row sorting. Cross-constructor
comparisons never arise for the homogeneous columns the program sorts;
a fixed arbitrary order keeps the function total. -/
def Val.lt : Val → Val → Bool
  | .i a, .i b => a < b
  | .s a, .s b => a.data < b.data
  | .i _, .s _ => true
  | .s _, .i _ => false

/-- Lexicographic strict order on sort keys (lists of cell values). -/
def keyLt : List Val → List Val → Bool
  | [], [] => false
  | [], _ :: _ => true
  | _ :: _, [] => false
  | a :: as, b :: bs =>
    if Val.lt a b then true
    else if Val.lt b a then false
    else keyLt as bs

/-- Insert an element into a list sorted by `key`, keeping ascending
order. -/
def sortInsert {α : Type} (key : α → List Val) (x : α) : List α → List α
  | [] => [x]
  | y :: ys =>
    if keyLt (key y) (key x) then y :: sortInsert key x ys
    else x :: y :: ys

/-- Comparison sort by `key` (ascending). pandas' default quicksort is
a comparison sort too; on the distinct-key inputs considered here any
comparison sort produces the same result. -/
def sortByKey {α : Type} (key : α → List Val) : List α → List α
  | [] => []
  | x :: xs => sortInsert key x (sortByKey key xs)

/-- Extract the sort key of a row for `sort_values(by=bys)`: the cells
of the named columns, in the order the names are listed. -/
def rowKey (cols : List String) (bys : List String) (r : List Val) :
    List Val :=
  bys.map (fun c => r.getD (cols.indexOf c) (Val.s ""))

/-- `DataFrame.sort_values(by=bys)`: reorder the rows by their sort
keys. Each row keeps its original index label (`ignore_index` is not
passed, so pandas does not relabel). -/
def Frame.sort_values (f : Frame) (bys : List String) : Frame :=
  let pairs := f.index.zip f.rows
  let sorted := sortByKey (fun p => rowKey f.cols bys p.2) pairs
  { cols := f.cols, index := sorted.map Prod.fst,
    rows := sorted.map Prod.snd }

/-- `compare_data_frames` of `eval.py`: compares actual results `df1`
against expected results `df2` and returns a verdict (`"C"` correct,
`"I"` incorrect, `"P"` partial) with an explanation. Column-subset
checks are set-based; the data comparisons use `DataFrame.equals`
(which also compares the row-index axis), first in original order, then
after `sort_values` over each frame's full column list. -/
def compare_data_frames (df1 df2 : Frame) : String × String :=
  if (df2.cols.filter (fun c => !(df1.cols.contains c))) ≠ [] then
    ("I", "Query did not return all expected columns")
  else
    let extra := df1.cols.filter (fun c => !(df2.cols.contains c))
    let caveats : List String :=
      if extra ≠ [] then ["Query returned extra columns."] else []
    let df1x := if extra ≠ [] then df1.drop extra else df1
    if !(df1x.equals df2) then
      if (df1x.sort_values df1x.cols).equals (df2.sort_values df2.cols) then
        ("P", String.intercalate " "
          (caveats ++ ["Query results differ by row order."]))
      else
        ("I", "Query returned different values than expected")
    else
      if caveats ≠ [] then ("P", String.intercalate " " caveats)
      else ("C", "Query returned expected results")

/-! ## Evaluation scorer (`eval.py`) -/

/-- The score returned by `sql_scorer` (the fields of inspect_ai's
`Score` the program sets; `metadata` only repeats the two result sets
and is omitted). -/
structure Score where
  value : String
  answer : Option String
  expl : Option String
deriving DecidableEq, Repr

/-- The eval-side `update_dashboard` tool of `eval.py`: the call is
appended to the per-session log `calls` first; then, for a non-empty
query, the query is executed (`duckdb.query(query).to_df()`), whose
failure raises out of the tool. Returns the log after the call and the
tool outcome. -/
def evalUpdateDashboard (engine : String → Except String Frame)
    (query title : String) (calls : List (String × String)) :
    List (String × String) × Except String Unit :=
  let calls' := calls ++ [(query, title)]
  if query ≠ "" then
    match engine query with
    | .error e => (calls', .error e)
    | .ok _ => (calls', .ok ())
  else (calls', .ok ())

/-- A call is accepted by the eval-side tool iff its query is the
empty-string reset or executes successfully. -/
def evalAccepts (engine : String → Except String Frame)
    (query : String) : Bool :=
  query = "" ||
    match engine query with
    | .ok _ => true
    | .error _ => false

/-- The query of the last call of a run that the eval-side tool
accepted (vocabulary of the spec: "the last accepted
`update_dashboard` call"). -/
def lastAcceptedQuery (engine : String → Except String Frame)
    (invocations : List (String × String)) : Option String :=
  ((invocations.filter (fun p => evalAccepts engine p.1)).getLast?).map
    Prod.fst

/-- Run a sequence of `update_dashboard` invocations through the
eval-side tool, threading the call log (every call is appended,
accepted or not). -/
def runEvalCalls (engine : String → Except String Frame)
    (invocations : List (String × String))
    (calls : List (String × String)) : List (String × String) :=
  invocations.foldl
    (fun log p => (evalUpdateDashboard engine p.1 p.2 log).1) calls

/-- `sql_scorer.score` of `eval.py`. `calls` is the logged call list of
the run, `targetText` the target query (`target.text`). The last
logged query (`udc.calls[-1][0] if udc.calls else None`) is compared
against the target: if exactly one of the two is absent the score is
`"I"`; if both are absent it is `"C"`; otherwise both queries are
executed — an engine failure propagates as an exception
(`Except.error`) — and `compare_data_frames` grades the result sets. -/
def sql_scorer (engine : String → Except String Frame)
    (calls : List (String × String)) (targetText : Option String) :
    Except String Score :=
  let last_query := (calls.getLast?).map Prod.fst
  match last_query, targetText with
  | none, some _ => .ok ⟨"I", none, none⟩
  | some lq, none => .ok ⟨"I", some lq, none⟩
  | none, none => .ok ⟨"C", none, none⟩
  | some lq, some tgt =>
    match engine lq with
    | .error e => .error e
    | .ok results =>
      match engine tgt with
      | .error e => .error e
      | .ok expected =>
        let ve := compare_data_frames results expected
        .ok ⟨ve.1, some lq, some ve.2⟩

/-! ## Dashboard state and tools (`app.py`) -/

/-- The Dashboard State Store: the two reactive values
`current_query` and `current_title` of `server` in `app.py`. -/
structure ViewState where
  current_query : String
  current_title : String
deriving DecidableEq, Repr

/-- `update_filter` of `app.py`: sets both reactive values under the
reactive lock and flushes; the whole store is replaced by the pair. -/
def update_filter (query title : String) (_s : ViewState) : ViewState :=
  { current_query := query, current_title := title }

/-- `query_db` of `app.py` (the Query Gate): executes the query against
the engine; failure raises. The JSON serialization of the result for
the LLM is out of scope; the result frame stands for it. -/
def app_query_db (engine : String → Except String Frame)
    (query : String) : Except String Frame :=
  engine query

/-- `update_dashboard` of `app.py`: for a non-empty query, first calls
`query_db` to verify it (its failure propagates as the tool outcome and
the store is left untouched); on success, or for the empty-string
reset, calls `update_filter query title`. Returns the tool outcome and
the store afterwards. -/
def app_update_dashboard (engine : String → Except String Frame)
    (query title : String) (s : ViewState) :
    Except String Unit × ViewState :=
  if query ≠ "" then
    match app_query_db engine query with
    | .error e => (.error e, s)
    | .ok _ => (.ok (), update_filter query title s)
  else (.ok (), update_filter query title s)

/-- `birds_data` of `app.py`: the derived view all outputs read — the
full dataset when the current query is empty, otherwise the engine's
result for the current query. -/
def birds_data (birds : Frame) (engine : String → Except String Frame)
    (s : ViewState) : Except String Frame :=
  if s.current_query = "" then .ok birds else engine s.current_query

/-! ## Chat sessions and forking (`app.py`) -/

/-- One message of a conversation history. -/
structure Turn where
  role : String
  content : String
deriving DecidableEq, Repr

/-- A chatlas `Chat` session as used by `server`: system prompt, model
identifier and the ordered turn history (`get_turns`/`set_turns`
exchange the history by value). -/
structure ChatSession where
  system_prompt : String
  model : String
  turns : List Turn
deriving DecidableEq, Repr

/-- The module-level model identifier `chat_model` of `app.py`, used
both to construct the primary session and inside `fork_session`. -/
def chat_model : String := "claude-3-7-sonnet-latest"

/-- `fork_session` of `app.py`: a new session with the current
session's system prompt, the constant `chat_model`, and
`set_turns(chat_session.get_turns())` — the history at fork time, by
value. (Tool registration is modelled by `invoke_update_dashboard`
below: both sessions' tools close over the same store.) -/
def fork_session (s : ChatSession) : ChatSession :=
  { system_prompt := s.system_prompt, model := chat_model,
    turns := s.turns }

/-- Append one turn to a session's history. -/
def add_turn (s : ChatSession) (t : Turn) : ChatSession :=
  { s with turns := s.turns ++ [t] }

/-- The pair of live sessions right after a fork: the original and the
session `fork_session` returned. -/
structure SessionPair where
  original : ChatSession
  forked : ChatSession
deriving DecidableEq, Repr

/-- Perform the fork: keep the original session and create the fork. -/
def do_fork (s : ChatSession) : SessionPair :=
  { original := s, forked := fork_session s }

/-- A turn arriving on the original session after the fork. -/
def append_original (w : SessionPair) (t : Turn) : SessionPair :=
  { w with original := add_turn w.original t }

/-- A turn arriving on the forked session after the fork. -/
def append_forked (w : SessionPair) (t : Turn) : SessionPair :=
  { w with forked := add_turn w.forked t }

/-- The app state after a fork: the single Dashboard State Store
(`current_query`/`current_title` of the one `server` scope) and the two
sessions. There is one `view` field because both sessions' registered
`update_dashboard` closures capture the same reactive values. -/
structure ForkedApp where
  view : ViewState
  primary : ChatSession
  side : ChatSession
deriving DecidableEq, Repr

/-- Fork the running app's session: the store is untouched, the side
session is `fork_session` of the primary. -/
def mk_forked (view : ViewState) (s : ChatSession) : ForkedApp :=
  { view := view, primary := s, side := fork_session s }

/-- Invoke the `update_dashboard` tool through one of the two sessions
(`viaSide = true` for the forked session). Both sessions' tool
bindings are the same closure over the one store, so the store update
is `app_update_dashboard` on `w.view` either way; the tool-call turn is
recorded on the invoking session's history. -/
def invoke_update_dashboard (engine : String → Except String Frame)
    (viaSide : Bool) (query title : String) (w : ForkedApp) :
    Except String Unit × ForkedApp :=
  let r := app_update_dashboard engine query title w.view
  let toolTurn : Turn := { role := "tool", content := query }
  if viaSide then
    (r.1, { w with view := r.2, side := add_turn w.side toolTurn })
  else
    (r.1, { w with view := r.2, primary := add_turn w.primary toolTurn })

/-- `read()` of the Dashboard State Store as seen from the running app:
the single shared `view`. -/
def read_view (w : ForkedApp) : ViewState :=
  w.view

/-! ## Concrete fixtures -/

/-- Actual result set of the spec's row-order scenario:
rows `{name:"A",count:3},{name:"B",count:1}` with the default range
index a `to_df()` frame carries. -/
def frameA : Frame :=
  { cols := ["name", "count"], index := [0, 1],
    rows := [[.s "A", .i 3], [.s "B", .i 1]] }

/-- Expected result set of the spec's row-order scenario:
the same rows in the opposite order, same default range index. -/
def frameB : Frame :=
  { cols := ["name", "count"], index := [0, 1],
    rows := [[.s "B", .i 1], [.s "A", .i 3]] }

/-- A one-row frame with columns `a`, `b`. -/
def frameC : Frame :=
  { cols := ["a", "b"], index := [0], rows := [[.i 1, .i 2]] }

/-- The same relation as `frameC` with its columns listed in the other
order. -/
def frameD : Frame :=
  { cols := ["b", "a"], index := [0], rows := [[.i 2, .i 1]] }

/-- A concrete dataset engine: accepts the queries `"SELECT 1"` and
`"TGT"` (both yielding `frameC`) and rejects everything else — in
particular the empty string and `"BAD"` — with a parser error. -/
def engine0 : String → Except String Frame := fun q =>
  if q = "SELECT 1" then .ok frameC
  else if q = "TGT" then .ok frameC
  else .error "Parser Error: syntax error"

/-- A concrete chat session whose model is the module constant
`chat_model`, as the primary session of `server` is constructed. -/
def sess0 : ChatSession :=
  { system_prompt := "sys", model := chat_model,
    turns := [{ role := "user", content := "hi" }] }

/-! ## Helper lemmas -/

/-- The eval-side tool's log append: every invocation extends the log
by its `(query, title)` pair, in every branch. -/
theorem evalUpdateDashboard_log (engine : String → Except String Frame)
    (q t : String) (calls : List (String × String)) :
    (evalUpdateDashboard engine q t calls).1 = calls ++ [(q, t)] := by
  unfold evalUpdateDashboard
  by_cases hq : q = ""
  · simp [hq]
  · rw [if_pos hq]
    cases h : engine q <;> simp [h]

/-- `getLast?` of a list extended by one element. -/
theorem getLast_of_concat {α : Type} (l : List α) (a : α) :
    (l ++ [a]).getLast? = some a := by
  rw [List.getLast?_append_cons]
  rfl

/-! ## Claims about the comparison scorer -/

/-- C1: the spec states that comparing result sets that differ only in
row order yields at worst `partial` with a row-order caveat, and in
particular that actual `{name:"A",count:3},{name:"B",count:1}` against
expected `{name:"B",count:1},{name:"A",count:3}` yields `partial`.
The code does not do this: `sort_values` keeps the original row-index
labels and `DataFrame.equals` compares the index axis, so the two
sorted frames carry the index sequences `[0, 1]` and `[1, 0]`, the
equality fails, and `compare_data_frames` returns `incorrect` — the
row-order caveat branch cannot fire on genuinely row-permuted frames
with default range indexes. This theorem evaluates the code at the
spec's own scenario: the inputs are equal-column, row-reversed frames,
and the verdict is `("I", ...)`, not `("P", ...)`. -/
theorem c1_row_order_scenario_incorrect :
    frameB.cols = frameA.cols ∧ frameB.index = frameA.index ∧
    frameB.rows = frameA.rows.reverse ∧
    compare_data_frames frameA frameB =
      ("I", "Query returned different values than expected") := by
  decide

/-- C9: `compare_data_frames` is sensitive to column order even though
the column-subset checks are set-based: `frameC` and `frameD` hold the
same one-row relation (same column set, each row a permutation of the
other matching the column permutation), yet the verdict is
`incorrect`, because both the direct comparison and the after-sorting
comparison compare the column axes as ordered lists. -/
theorem c9_column_order_sensitive :
    frameD.cols = frameC.cols.reverse ∧
    frameD.rows = frameC.rows.map List.reverse ∧
    List.Perm frameC.cols frameD.cols ∧
    List.Perm (frameC.cols.zip (frameC.rows.getD 0 []))
      (frameD.cols.zip (frameD.rows.getD 0 [])) ∧
    compare_data_frames frameC frameD =
      ("I", "Query returned different values than expected") := by
  decide

/-! ## Claims about the evaluation scorer -/

/-- C2 counterexample: the claim says a run whose only
`update_dashboard` invocation was the empty-string reset is scored by
the absence rule, so with no expected query the verdict should be
`correct`. In the code the logged call makes `last_query` the empty
string, which is not `None`, so against an absent target the scorer
returns `"I"` (incorrect), refuting the claim at this input. -/
theorem c2_empty_reset_not_absent :
    sql_scorer engine0 [("", "Reset")] none =
      .ok { value := "I", answer := some "", expl := none } ∧
    ("I" : String) ≠ "C" :=
  ⟨rfl, by decide⟩

/-- C2 amended: only a run that never invoked `update_dashboard` (an
empty call log) is scored by the absence rule — both queries absent
gives `correct`, exactly one absent gives `incorrect`. A run whose
only invocation was the empty-string reset has last query `""`, which
counts as present: against an absent expected query the verdict is
`incorrect`, and against a present expected query the scorer executes
the empty query and propagates the engine's error instead of
returning a score. -/
theorem c2_absence_rule_amended (engine : String → Except String Frame)
    (t tgt e : String) (h : engine "" = .error e) :
    sql_scorer engine [] none =
      .ok { value := "C", answer := none, expl := none } ∧
    sql_scorer engine [] (some tgt) =
      .ok { value := "I", answer := none, expl := none } ∧
    sql_scorer engine [("", t)] none =
      .ok { value := "I", answer := some "", expl := none } ∧
    sql_scorer engine [("", t)] (some tgt) = .error e := by
  refine ⟨rfl, rfl, rfl, ?_⟩
  simp [sql_scorer, h]

/-- C2 witness: the amended absence rule at the concrete engine
`engine0` (which rejects the empty query). -/
theorem c2_absence_rule_amended_witness :
    engine0 "" = .error "Parser Error: syntax error" ∧
    (sql_scorer engine0 [] none =
        .ok { value := "C", answer := none, expl := none } ∧
      sql_scorer engine0 [] (some "TGT") =
        .ok { value := "I", answer := none, expl := none } ∧
      sql_scorer engine0 [("", "Reset")] none =
        .ok { value := "I", answer := some "", expl := none } ∧
      sql_scorer engine0 [("", "Reset")] (some "TGT") =
        .error "Parser Error: syntax error") :=
  ⟨rfl,
    c2_absence_rule_amended engine0 "Reset" "TGT"
      "Parser Error: syntax error" rfl⟩

/-- C10: the scorer is partial at its public interface. If the last
logged `update_dashboard` call's query fails on the engine — which is
reachable, since the log append precedes validation, so rejected
queries (and the empty string) are logged — then scoring the run's log
against a present target propagates the engine's error instead of
returning a `Score`. -/
theorem c10_scorer_partial (engine : String → Except String Frame)
    (prior : List (String × String)) (q t tgt e : String)
    (he : engine q = .error e) :
    (evalUpdateDashboard engine q t prior).1 = prior ++ [(q, t)] ∧
    sql_scorer engine (evalUpdateDashboard engine q t prior).1
      (some tgt) = .error e := by
  refine ⟨evalUpdateDashboard_log engine q t prior, ?_⟩
  rw [evalUpdateDashboard_log engine q t prior]
  simp [sql_scorer, getLast_of_concat, he]

/-- C10 witness: a rejected query `"BAD"` is logged by the tool, and
scoring that log against the valid target `"TGT"` fails with the
engine's error. -/
theorem c10_scorer_partial_witness :
    engine0 "BAD" = .error "Parser Error: syntax error" ∧
    ((evalUpdateDashboard engine0 "BAD" "b" []).1 = [] ++ [("BAD", "b")] ∧
      sql_scorer engine0 (evalUpdateDashboard engine0 "BAD" "b" []).1
        (some "TGT") = .error "Parser Error: syntax error") :=
  ⟨rfl,
    c10_scorer_partial engine0 [] "BAD" "b" "TGT"
      "Parser Error: syntax error" rfl⟩

/-- C6 counterexample: a run whose first invocation `"SELECT 1"` was
accepted and whose second invocation `"BAD"` was rejected. The last
accepted call's query is `"SELECT 1"`, but the logged call list ends
with `"BAD"` and the scorer consumes that last logged query: it fails
with the engine's error for `"BAD"` instead of handing the last
accepted query's results to the comparison. -/
theorem c6_last_logged_not_last_accepted :
    lastAcceptedQuery engine0 [("SELECT 1", "a"), ("BAD", "b")] =
      some "SELECT 1" ∧
    runEvalCalls engine0 [("SELECT 1", "a"), ("BAD", "b")] [] =
      [("SELECT 1", "a"), ("BAD", "b")] ∧
    (runEvalCalls engine0 [("SELECT 1", "a"), ("BAD", "b")]
        []).getLast?.map Prod.fst = some "BAD" ∧
    ("BAD" : String) ≠ "SELECT 1" ∧
    sql_scorer engine0 (runEvalCalls engine0 [("SELECT 1", "a"),
      ("BAD", "b")] []) (some "TGT") =
      .error "Parser Error: syntax error" :=
  ⟨rfl, rfl, rfl, by decide, rfl⟩

/-- C6 amended: every invocation, accepted or not, is appended to the
per-session call log, and the scorer consumes the query of the last
*logged* call: when that query and the target both execute, the score
compares their result sets and reports that query as the answer. (The
last accepted call's query is consumed only when it happens to also be
the last logged one.) -/
theorem c6_scorer_uses_last_logged (engine : String → Except String Frame)
    (calls : List (String × String)) (q t tgt q0 t0 : String)
    (log0 : List (String × String)) (r1 r2 : Frame)
    (hl : calls.getLast? = some (q, t))
    (h1 : engine q = .ok r1) (h2 : engine tgt = .ok r2) :
    (evalUpdateDashboard engine q0 t0 log0).1 = log0 ++ [(q0, t0)] ∧
    sql_scorer engine calls (some tgt) =
      .ok { value := (compare_data_frames r1 r2).1, answer := some q,
            expl := some (compare_data_frames r1 r2).2 } := by
  refine ⟨evalUpdateDashboard_log engine q0 t0 log0, ?_⟩
  simp [sql_scorer, hl, h1, h2]

/-- C6 witness: the amended statement at the concrete engine `engine0`
with a one-call log whose (accepted) call is also the last logged
one. -/
theorem c6_scorer_uses_last_logged_witness :
    [("SELECT 1", "a")].getLast? = some ("SELECT 1", "a") ∧
    engine0 "SELECT 1" = .ok frameC ∧
    engine0 "TGT" = .ok frameC ∧
    ((evalUpdateDashboard engine0 "x" "y" []).1 = [] ++ [("x", "y")] ∧
      sql_scorer engine0 [("SELECT 1", "a")] (some "TGT") =
        .ok { value := (compare_data_frames frameC frameC).1,
              answer := some "SELECT 1",
              expl := some (compare_data_frames frameC frameC).2 }) :=
  ⟨rfl, rfl, rfl,
    c6_scorer_uses_last_logged engine0 [("SELECT 1", "a")] "SELECT 1"
      "a" "TGT" "x" "y" [] frameC frameC rfl rfl rfl⟩

/-! ## Claims about the app's tool layer -/

/-- C3: for every non-empty query the engine rejects, the app's
`update_dashboard` tool leaves the `ViewState` exactly as it was and
its outcome is the failure reason as a value at the tool boundary
(`Except.error e`), which the chat layer hands back to the LLM as the
tool-call result. -/
theorem c3_gate_failure_leaves_view (engine : String → Except String Frame)
    (q t : String) (s : ViewState) (e : String)
    (hq : q ≠ "") (he : engine q = .error e) :
    app_update_dashboard engine q t s = (.error e, s) := by
  unfold app_update_dashboard app_query_db
  rw [if_pos hq, he]

/-- C3 witness: `update_dashboard` with the rejected query
`"SELECT * FROM nonexistent"` leaves the prior view `⟨"q0", "t0"⟩`
untouched and returns the engine's error. -/
theorem c3_gate_failure_leaves_view_witness :
    ("SELECT * FROM nonexistent" : String) ≠ "" ∧
    engine0 "SELECT * FROM nonexistent" =
      .error "Parser Error: syntax error" ∧
    app_update_dashboard engine0 "SELECT * FROM nonexistent" "x"
        { current_query := "q0", current_title := "t0" } =
      (.error "Parser Error: syntax error",
        { current_query := "q0", current_title := "t0" }) :=
  ⟨by decide, rfl,
    c3_gate_failure_leaves_view engine0 "SELECT * FROM nonexistent" "x"
      { current_query := "q0", current_title := "t0" }
      "Parser Error: syntax error" (by decide) rfl⟩

/-- C7: calling `update_dashboard` with the empty query bypasses the
Query Gate entirely — the outcome does not depend on the engine at
all — and commits the pair, after which `birds_data` is the full
unfiltered dataset, whatever the prior view state was. -/
theorem c7_empty_query_resets (engine engine2 : String → Except String Frame)
    (t : String) (s : ViewState) (birds : Frame) :
    app_update_dashboard engine "" t s =
      (.ok (), { current_query := "", current_title := t }) ∧
    app_update_dashboard engine "" t s =
      app_update_dashboard engine2 "" t s ∧
    birds_data birds engine (app_update_dashboard engine "" t s).2 =
      .ok birds := by
  refine ⟨rfl, rfl, ?_⟩
  simp [app_update_dashboard, update_filter, birds_data]

/-- C8: whenever the app's `update_dashboard` accepts a
`(query, title)` pair, the state it leaves behind — what `read()`
returns immediately afterwards — is exactly
`{ current_query := query, current_title := title }`: both fields come
from the call's arguments and a `ViewState` has no other field. -/
theorem c8_read_after_set (engine : String → Except String Frame)
    (q t : String) (s s' : ViewState) (u : Unit)
    (h : app_update_dashboard engine q t s = (.ok u, s')) :
    s' = { current_query := q, current_title := t } := by
  unfold app_update_dashboard app_query_db at h
  by_cases hq : q = ""
  · rw [if_neg (by simp [hq])] at h
    have := congrArg Prod.snd h
    simpa [update_filter] using this.symm
  · rw [if_pos hq] at h
    cases he : engine q with
    | error e =>
      rw [he] at h
      exact absurd (congrArg Prod.fst h) (by simp)
    | ok r =>
      rw [he] at h
      have := congrArg Prod.snd h
      simpa [update_filter] using this.symm

/-- C8 witness: the accepted call `("SELECT 1", "ttl")` over the prior
view `⟨"old", "oldt"⟩` leaves exactly the pair. -/
theorem c8_read_after_set_witness :
    app_update_dashboard engine0 "SELECT 1" "ttl"
        { current_query := "old", current_title := "oldt" } =
      (.ok (), { current_query := "SELECT 1", current_title := "ttl" }) ∧
    ({ current_query := "SELECT 1", current_title := "ttl" } : ViewState) =
      { current_query := "SELECT 1", current_title := "ttl" } :=
  ⟨rfl,
    c8_read_after_set engine0 "SELECT 1" "ttl"
      { current_query := "old", current_title := "oldt" }
      { current_query := "SELECT 1", current_title := "ttl" } () rfl⟩

/-! ## Claims about session forking -/

/-- C4: `fork_session` produces a session whose turn history equals the
original's at fork time, with the same system prompt and model (the
fork is built with the constant `chat_model`, which is the model the
primary session was constructed with), and afterwards a turn appended
to either session leaves the other session — its turn count and turn
contents — unchanged. -/
theorem c4_fork_history_independent (s : ChatSession) (t t' : Turn)
    (h : s.model = chat_model) :
    (do_fork s).forked.turns = s.turns ∧
    (do_fork s).forked.system_prompt = s.system_prompt ∧
    (do_fork s).forked.model = s.model ∧
    (append_forked (do_fork s) t).original = s ∧
    (append_forked (do_fork s) t).original.turns.length =
      s.turns.length ∧
    (append_original (do_fork s) t').forked = fork_session s ∧
    (append_original (do_fork s) t').forked.turns = s.turns := by
  simp [do_fork, fork_session, append_forked, append_original,
    add_turn, h]

/-- C4 witness: forking the concrete session `sess0` and appending a
turn on each side. -/
theorem c4_fork_history_independent_witness :
    sess0.model = chat_model ∧
    ((do_fork sess0).forked.turns = sess0.turns ∧
      (do_fork sess0).forked.system_prompt = sess0.system_prompt ∧
      (do_fork sess0).forked.model = sess0.model ∧
      (append_forked (do_fork sess0)
        { role := "user", content := "more" }).original = sess0 ∧
      (append_forked (do_fork sess0)
          { role := "user", content := "more" }).original.turns.length =
        sess0.turns.length ∧
      (append_original (do_fork sess0)
          { role := "assistant", content := "reply" }).forked =
        fork_session sess0 ∧
      (append_original (do_fork sess0)
          { role := "assistant", content := "reply" }).forked.turns =
        sess0.turns) :=
  ⟨rfl,
    c4_fork_history_independent sess0
      { role := "user", content := "more" }
      { role := "assistant", content := "reply" } rfl⟩

/-- C5: after a fork there is one Dashboard State Store. Forking does
not touch it, and an accepted `update_dashboard` committed through
either session (the tool bindings of both are the same closure over
the one store) sets the single shared `view` to the committed pair —
the resulting store does not depend on which session invoked the tool,
so reading the shared `ViewState` observes the update either way. -/
theorem c5_fork_shares_store (engine : String → Except String Frame)
    (q t : String) (v : ViewState) (s : ChatSession) (f : Frame)
    (hAcc : q = "" ∨ engine q = .ok f) :
    read_view (mk_forked v s) = v ∧
    read_view ((invoke_update_dashboard engine true q t
        (mk_forked v s)).2) =
      { current_query := q, current_title := t } ∧
    read_view ((invoke_update_dashboard engine false q t
        (mk_forked v s)).2) =
      { current_query := q, current_title := t } ∧
    (invoke_update_dashboard engine true q t (mk_forked v s)).2.view =
      (invoke_update_dashboard engine false q t
        (mk_forked v s)).2.view := by
  rcases hAcc with h | h
  · subst h
    simp [invoke_update_dashboard, app_update_dashboard,
      update_filter, read_view, mk_forked]
  · simp [invoke_update_dashboard, app_update_dashboard, app_query_db,
      h, update_filter, read_view, mk_forked]

/-- C5 witness: the accepted query `"SELECT 1"` committed through the
forked and through the primary session over the prior view
`⟨"pq", "pt"⟩`. -/
theorem c5_fork_shares_store_witness :
    (("SELECT 1" : String) = "" ∨ engine0 "SELECT 1" = .ok frameC) ∧
    (read_view (mk_forked
        { current_query := "pq", current_title := "pt" } sess0) =
      { current_query := "pq", current_title := "pt" } ∧
    read_view ((invoke_update_dashboard engine0 true "SELECT 1" "ttl"
        (mk_forked { current_query := "pq", current_title := "pt" }
          sess0)).2) =
      { current_query := "SELECT 1", current_title := "ttl" } ∧
    read_view ((invoke_update_dashboard engine0 false "SELECT 1" "ttl"
        (mk_forked { current_query := "pq", current_title := "pt" }
          sess0)).2) =
      { current_query := "SELECT 1", current_title := "ttl" } ∧
    (invoke_update_dashboard engine0 true "SELECT 1" "ttl"
        (mk_forked { current_query := "pq", current_title := "pt" }
          sess0)).2.view =
      (invoke_update_dashboard engine0 false "SELECT 1" "ttl"
        (mk_forked { current_query := "pq", current_title := "pt" }
          sess0)).2.view) :=
  ⟨Or.inr rfl,
    c5_fork_shares_store engine0 "SELECT 1" "ttl"
      { current_query := "pq", current_title := "pt" } sess0 frameC
      (Or.inr rfl)⟩

end Sidebot
